import Mathlib

/-!
Verification of the synchronized multi-stream playback and view-scoped
filtering core of the cvat-multiview repository.

The definitions below are shallow embeddings of the TypeScript source:
numbers that the code manipulates as JS numbers are modelled as `Int` or
`Rat`, absent (`null` / `undefined`) values as `Option`, and the throwing
path of `filterAnnotations` as `Except`.
-/

namespace Multiview

/-- Object types of CVAT object states, from cvat-core-wrapper
(`ObjectType.SHAPE`, `ObjectType.TRACK`, `ObjectType.TAG`). -/
inductive ObjectType
  | shape
  | track
  | tagType
deriving DecidableEq, Repr

/-- Workspace kinds from the reducers module; the multiview workspace and
the review workspace are the ones the filter inspects. -/
inductive Workspace
  | standard
  | attributes
  | singleShape
  | tagsWs
  | review
  | multiview
deriving DecidableEq, Repr

/-- One object state as seen by `filterAnnotations`
(src/cvat-ui/src/utils/filter-annotations.ts): its object type, its frame,
its optional `viewId` tag (`none` models both `null` and `undefined`), and
its ground-truth flag. -/
structure ObjState where
  objectType : ObjectType
  frame : Int
  viewId : Option Int
  isGroundTruth : Bool
deriving DecidableEq, Repr

/-- The parameters record of `filterAnnotations`
(interface FilterAnnotationsParams). -/
structure FilterAnnotationsParams where
  workspace : Workspace
  excludeTypes : Option (List ObjectType)
  includeTypes : Option (List ObjectType)
  frame : Option Int
  viewId : Option Int

/-- The pieces of the Redux store state that `filterAnnotations` reads:
`state.annotation.job.meta` presence, `job.instance` presence,
`job.startFrame`, `meta.getDataFrameNumber` and
`groundTruthJobFramesMeta.includedFrames`. -/
structure JobContext where
  metaPresent : Bool
  jobPresent : Bool
  startFrame : Int
  dataFrameNumber : Int → Int
  includedFrames : Option (List Int)

/-- The SHAPE-on-frame clause of the filter callback: a SHAPE object state
is dropped when a `frame` parameter is supplied and the state's frame
differs from it. -/
def shapeOffFrame (frameParam : Option Int) (s : ObjState) : Bool :=
  match frameParam with
  | some f => decide (s.objectType = ObjectType.shape) && decide (s.frame ≠ f)
  | none => false

/-- The multiview viewId clause of the filter callback: with a non-null
`viewId` parameter and the MULTIVIEW workspace, a state without a `viewId`
is dropped unless the requested view is 1, and a state with a `viewId` is
dropped unless it matches the requested view. -/
def viewIdReject (ws : Workspace) (viewIdParam : Option Int) (s : ObjState) : Bool :=
  match viewIdParam with
  | some v =>
      if ws = Workspace.multiview then
        match s.viewId with
        | none => decide (v ≠ 1)
        | some sv => decide (sv ≠ v)
      else false
  | none => false

/-- The ground-truth-track clause of the filter callback: in the REVIEW
workspace with meta and job present, a truthy frame and known GT frames,
the callback returns, for GT tracks, whether the mapped data frame is
among the GT frames (`some b`); in every other case the clause does not
decide the result (`none`). -/
def gtOverride (ctx : JobContext) (p : FilterAnnotationsParams) (s : ObjState) : Option Bool :=
  match p.frame, ctx.includedFrames with
  | some f, some frames =>
      if ctx.metaPresent = true ∧ ctx.jobPresent = true ∧ p.workspace = Workspace.review ∧ f ≠ 0 then
        if s.objectType = ObjectType.track ∧ s.isGroundTruth = true then
          some (frames.contains (ctx.dataFrameNumber (f - ctx.startFrame)))
        else none
      else none
  | _, _ => none

/-- The filter callback of `filterAnnotations`, clause by clause in source
order: exclude list, include list, SHAPE frame check, multiview viewId
check, ground-truth override, default keep. -/
def keepState (ctx : JobContext) (p : FilterAnnotationsParams) (s : ObjState) : Bool :=
  if (match p.excludeTypes with
      | some ex => ex.contains s.objectType
      | none => false) then false
  else if (match p.includeTypes with
      | some inc => !(inc.contains s.objectType)
      | none => false) then false
  else if shapeOffFrame p.frame s then false
  else if viewIdReject p.workspace p.viewId s then false
  else match gtOverride ctx p s with
    | some b => b
    | none => true

/-- Shallow embedding of `filterAnnotations`
(src/cvat-ui/src/utils/filter-annotations.ts): throws when both exclude
and include lists are supplied, otherwise filters the states with the
callback. -/
def filterAnnotations (ctx : JobContext) (states : List ObjState)
    (p : FilterAnnotationsParams) : Except String (List ObjState) :=
  if p.excludeTypes.isSome ∧ p.includeTypes.isSome then
    Except.error "Can not filter annotations with exclude and include filters simultaneously"
  else
    Except.ok (states.filter (keepState ctx p))

/-- The parameters of a pure view-scoped invocation of the filter: the
MULTIVIEW workspace, no exclude or include lists, a frame and a view. -/
def multiviewParams (v f : Int) : FilterAnnotationsParams :=
  { workspace := Workspace.multiview
    excludeTypes := none
    includeTypes := none
    frame := some f
    viewId := some v }

theorem gtOverride_multiview (ctx : JobContext) (v f : Int) (a : ObjState) :
    gtOverride ctx (multiviewParams v f) a = none := by
  unfold gtOverride multiviewParams
  cases ctx.includedFrames <;> simp

theorem keepState_multiview (ctx : JobContext) (v f : Int) (a : ObjState) :
    keepState ctx (multiviewParams v f) a = true ↔
      (a.objectType = ObjectType.shape → a.frame = f) ∧
        (a.viewId = some v ∨ (a.viewId = none ∧ v = 1)) := by
  have hgt := gtOverride_multiview ctx v f a
  unfold keepState
  rw [hgt]
  unfold multiviewParams shapeOffFrame viewIdReject
  rcases a with ⟨t, fr, vid, gt⟩
  rcases vid with _ | sv <;> rcases t <;>
    by_cases hv : v = 1 <;> by_cases hf : fr = f <;>
      simp_all

theorem filterAnnotations_multiview_eq (ctx : JobContext) (states : List ObjState)
    (v f : Int) :
    filterAnnotations ctx states (multiviewParams v f) =
      Except.ok (states.filter (keepState ctx (multiviewParams v f))) := by
  unfold filterAnnotations multiviewParams
  simp

/-- C1: for every job context, list of object states, active view `v` and
frame `f`, the multiview invocation of `filterAnnotations` succeeds and
keeps a state `a` if and only if `a` is in the input, `a` is not
frame-scoped (a SHAPE) or its frame equals `f`, and `a`'s viewId equals
`v` or is absent with `v = 1`; in particular a state with an absent
viewId is never kept for a view other than view 1. -/
theorem C1_view_scoped_filter (ctx : JobContext) (states : List ObjState)
    (v f : Int) (a : ObjState) (res : List ObjState)
    (h : filterAnnotations ctx states (multiviewParams v f) = Except.ok res) :
    a ∈ res ↔
      a ∈ states ∧ (a.objectType = ObjectType.shape → a.frame = f) ∧
        (a.viewId = some v ∨ (a.viewId = none ∧ v = 1)) := by
  have hres : res = states.filter (keepState ctx (multiviewParams v f)) := by
    rw [filterAnnotations_multiview_eq] at h
    exact (Except.ok.inj h).symm
  subst hres
  rw [List.mem_filter, keepState_multiview]

/-- C1 witness: a legacy state without a viewId is kept by the filter for
view 1 at its own frame. -/
theorem C1_view_scoped_filter_witness :
    (⟨ObjectType.shape, 5, none, false⟩ : ObjState) ∈ [(⟨ObjectType.shape, 5, none, false⟩ : ObjState)] :=
  (C1_view_scoped_filter
    ⟨false, false, 0, id, none⟩ [⟨ObjectType.shape, 5, none, false⟩] 1 5
    ⟨ObjectType.shape, 5, none, false⟩ [⟨ObjectType.shape, 5, none, false⟩]
    (by rw [filterAnnotations_multiview_eq]; rfl)).mpr (by decide)

/-- JS `Math.round`: floor of the argument plus one half. -/
def jsRound (q : ℚ) : Int := Int.floor (q + 1 / 2)

/-- The candidate frame sampled from the master element inside
`updateFrame`: `Math.round(masterTime * fps)`. -/
def candidateFrame (fps : ℚ) (masterTime : ℚ) : Int := jsRound (masterTime * fps)

/-- The throttle interval of the frame proposal loop (`THROTTLE_MS`). -/
def throttleMs : ℚ := 100

/-- One animation tick observed by `updateFrame`: the value of
`performance.now()`, the master element's `currentTime`, whether the
master element is paused, and whether an in-flight `changeFrameAsync`
promise resolved (ran its `finally`) before this tick. -/
structure Tick where
  now : ℚ
  masterTime : ℚ
  masterPaused : Bool
  resolvedBefore : Bool
deriving DecidableEq

/-- The job fields the loop reads: presence, `startFrame`, `stopFrame`. -/
structure JobCfg where
  present : Bool
  startFrame : Int
  stopFrame : Int
deriving DecidableEq

/-- The mutable closure state of `updateFrame`:
`lastDispatchedFrame`, `lastDispatchTime`, `pendingDispatch`, plus the
ordered list of target frames proposed so far (the observable output). -/
structure LoopState where
  lastDispatchedFrame : Int
  lastDispatchTime : ℚ
  pendingDispatch : Bool
  proposals : List Int
deriving DecidableEq

/-- The asynchronous clearing of `pendingDispatch` by the promise's
`finally` handler, applied when it fires before a tick. -/
def resolvePending (s : LoopState) (tk : Tick) : LoopState :=
  if tk.resolvedBefore then { s with pendingDispatch := false } else s

/-- One pass of `updateFrame` (src/unnamed/part_005, the throttled frame
proposal loop): skip when the master is paused; otherwise compute the
candidate frame and dispatch `min(newFrame + startFrame, stopFrame)` only
when the candidate differs from the last dispatched frame, the throttle
interval elapsed, no dispatch is pending, and the job is present. -/
def tickStep (fps : ℚ) (job : JobCfg) (s₀ : LoopState) (tk : Tick) : LoopState :=
  let s := resolvePending s₀ tk
  if tk.masterPaused then s
  else
    let newFrame := candidateFrame fps tk.masterTime
    if newFrame ≠ s.lastDispatchedFrame ∧ throttleMs ≤ tk.now - s.lastDispatchTime ∧
        s.pendingDispatch = false ∧ job.present = true then
      { lastDispatchedFrame := newFrame
        lastDispatchTime := tk.now
        pendingDispatch := true
        proposals := s.proposals ++ [min (newFrame + job.startFrame) job.stopFrame] }
    else s

/-- A run of the animation loop over a list of ticks. -/
def runTicks (fps : ℚ) (job : JobCfg) (s : LoopState) (ticks : List Tick) : LoopState :=
  ticks.foldl (tickStep fps job) s

/-- The loop state at the moment playback starts: `lastFrameRef.current`
is `-1`, `lastDispatchTime` is `0`, no dispatch pending, nothing
proposed. -/
def initLoopState : LoopState :=
  { lastDispatchedFrame := -1, lastDispatchTime := 0, pendingDispatch := false, proposals := [] }

/-- The tick trace of the claimed scenario: five ticks 20 ms apart whose
master times yield the candidate frames 10, 10, 11, 11, 12 at 30 fps; the
in-flight flag is generously assumed resolved before every later tick. -/
def c2Ticks : List Tick :=
  [ ⟨200, 10 / 30, false, false⟩
  , ⟨220, 10 / 30, false, true⟩
  , ⟨240, 11 / 30, false, true⟩
  , ⟨260, 11 / 30, false, true⟩
  , ⟨280, 12 / 30, false, true⟩ ]

/-- A present job whose frame range does not clip the scenario. -/
def c2Job : JobCfg := ⟨true, 0, 100000⟩

theorem c2_trace_proposals :
    (runTicks 30 c2Job initLoopState c2Ticks).proposals = [10] := by
  norm_num [runTicks, c2Ticks, c2Job, initLoopState, tickStep, resolvePending,
    candidateFrame, jsRound, throttleMs]

theorem resolvePending_proposals (s : LoopState) (tk : Tick) :
    (resolvePending s tk).proposals = s.proposals := by
  unfold resolvePending
  split <;> rfl

theorem resolvePending_lastDispatchTime (s : LoopState) (tk : Tick) :
    (resolvePending s tk).lastDispatchTime = s.lastDispatchTime := by
  unfold resolvePending
  split <;> rfl

/-- C2 counterexample: on the claimed trace of candidate frames
10, 10, 11, 11, 12 across ticks 20 ms apart, the loop proposes only
frame 10 — frame 12 falls a mere 80 ms after the frame-10 proposal and is
dropped by the 100 ms throttle exactly as frame 11 is — so the claimed
proposal sequence 10 then 12 is not what the code produces. -/
theorem C2_throttle_trace_counterexample :
    (runTicks 30 c2Job initLoopState c2Ticks).proposals = [10] ∧
      (runTicks 30 c2Job initLoopState c2Ticks).proposals ≠ [10, 12] := by
  refine ⟨c2_trace_proposals, ?_⟩
  rw [c2_trace_proposals]
  decide

/-- C2 amended: the loop proposes a frame at a tick only when the
candidate differs from the last proposed frame, at least 100 ms elapsed
since the last proposal, no proposal is in flight and a job is present —
and on the claimed trace the proposals are exactly frame 10 (frames 11
and 12 are both dropped by the throttle), a sequence that never regresses
below its last proposed value. -/
theorem C2_throttle_guard_and_trace (fps : ℚ) (job : JobCfg) (s₀ : LoopState) (tk : Tick)
    (hgrow : (tickStep fps job s₀ tk).proposals ≠ s₀.proposals) :
    (candidateFrame fps tk.masterTime ≠ (resolvePending s₀ tk).lastDispatchedFrame ∧
        throttleMs ≤ tk.now - s₀.lastDispatchTime ∧
        (resolvePending s₀ tk).pendingDispatch = false ∧
        job.present = true ∧ tk.masterPaused = false) ∧
      (runTicks 30 c2Job initLoopState c2Ticks).proposals = [10] ∧
      List.Chain' (· ≤ ·) (runTicks 30 c2Job initLoopState c2Ticks).proposals := by
  refine ⟨?_, c2_trace_proposals, by rw [c2_trace_proposals]; simp⟩
  unfold tickStep at hgrow
  by_cases hp : tk.masterPaused
  · simp [hp, resolvePending_proposals] at hgrow
  · simp [hp] at hgrow
    split at hgrow
    · rename_i hcond
      refine ⟨hcond.1, ?_, hcond.2.2.1, hcond.2.2.2, by simpa using hp⟩
      rw [← resolvePending_lastDispatchTime s₀ tk]
      exact hcond.2.1
    · exact absurd (resolvePending_proposals s₀ tk) hgrow

/-- C2 amended witness: the guard conditions extracted from a concrete
growing tick, together with the concrete trace result. -/
theorem C2_throttle_guard_and_trace_witness :
    (candidateFrame 30 (10 / 30) ≠
        (resolvePending initLoopState ⟨200, 10 / 30, false, false⟩).lastDispatchedFrame ∧
      throttleMs ≤ (200 : ℚ) - initLoopState.lastDispatchTime ∧
      (resolvePending initLoopState ⟨200, 10 / 30, false, false⟩).pendingDispatch = false ∧
      c2Job.present = true ∧ (⟨200, 10 / 30, false, false⟩ : Tick).masterPaused = false) ∧
      (runTicks 30 c2Job initLoopState c2Ticks).proposals = [10] ∧
      List.Chain' (· ≤ ·) (runTicks 30 c2Job initLoopState c2Ticks).proposals :=
  C2_throttle_guard_and_trace 30 c2Job initLoopState ⟨200, 10 / 30, false, false⟩
    (by norm_num [tickStep, resolvePending, candidateFrame, jsRound, throttleMs, c2Job,
      initLoopState])

/-- One HTML media element as the playback coordinator manipulates it:
whether the element sits in the active multiview cell, its current time,
its paused, muted and ended flags, and whether a programmatic `play()`
call on it resolves (autoplay policy). -/
structure MediaEl where
  activeCell : Bool
  currentTime : ℚ
  paused : Bool
  muted : Bool
  ended : Bool
  playOk : Bool
deriving DecidableEq

/-- Observable operations issued to media elements by `playAllVideos`, in
issue order; the index is the element's position in the DOM query
result. -/
inductive PlayEv
  | pauseEl : Nat → PlayEv
  | muteEl : Nat → Bool → PlayEv
  | seekEl : Nat → ℚ → PlayEv
  | playEl : Nat → PlayEv
deriving DecidableEq

/-- Phase one of `playAllVideos`: pause and mute every element. -/
def pauseMutePhase (videos : List MediaEl) : List MediaEl × List PlayEv :=
  (videos.map fun v => { v with paused := true, muted := true },
   (List.range videos.length).flatMap fun i => [PlayEv.pauseEl i, PlayEv.muteEl i true])

/-- Phase two of `playAllVideos`: seek every element to the target time. -/
def seekAllPhase (targetTime : ℚ) (videos : List MediaEl) : List MediaEl × List PlayEv :=
  (videos.map fun v => { v with currentTime := targetTime },
   (List.range videos.length).map fun i => PlayEv.seekEl i targetTime)

/-- Phase three of `playAllVideos`: start playback of every element; a
rejected `play()` is caught per element and leaves that element paused. -/
def playPhase (videos : List MediaEl) : List MediaEl × List PlayEv :=
  (videos.map fun v => if v.playOk then { v with paused := false } else v,
   (List.range videos.length).map fun i => PlayEv.playEl i)

/-- Phase four of `playAllVideos`: set every element's muted flag to the
negation of whether its cell is the active one. -/
def unmutePhase (videos : List MediaEl) : List MediaEl × List PlayEv :=
  (videos.map fun v => { v with muted := !v.activeCell },
   videos.enum.map fun p => PlayEv.muteEl p.1 (!p.2.activeCell))

/-- Shallow embedding of `playAllVideos`
(src/unnamed/part_005 and multiview-workspace.tsx): with no videos it
does nothing; otherwise it pauses and mutes all, seeks all to
`(frameNumber - startFrame) / fps`, waits, plays all, and finally unmutes
only the element in the active cell.  The second component is the ordered
trace of operations issued. -/
def playAllVideos (videos : List MediaEl) (frameNumber startFrame : Int) (fps : ℚ) :
    List MediaEl × List PlayEv :=
  if videos.isEmpty then (videos, [])
  else
    let targetTime : ℚ := ((frameNumber : ℚ) - (startFrame : ℚ)) / fps
    let r₁ := pauseMutePhase videos
    let r₂ := seekAllPhase targetTime r₁.1
    let r₃ := playPhase r₂.1
    let r₄ := unmutePhase r₃.1
    (r₄.1, r₁.2 ++ r₂.2 ++ r₃.2 ++ r₄.2)

theorem enum_map_pair {α β : Type} (f : α → β) (l : List α) :
    (l.map f).enum = l.enum.map fun p => (p.1, f p.2) := by
  rw [List.enum_map]
  rfl

/-- The pointwise effect of the whole play sequence on one element: it
ends at the target time, paused exactly when its `play()` rejected, and
muted exactly when its cell is not the active one. -/
def playOutcome (targetTime : ℚ) (v : MediaEl) : MediaEl :=
  { activeCell := v.activeCell
    currentTime := targetTime
    paused := !v.playOk
    muted := !v.activeCell
    ended := v.ended
    playOk := v.playOk }

theorem playAllVideos_final (videos : List MediaEl) (frameNumber startFrame : Int) (fps : ℚ)
    (hne : videos.isEmpty = false) :
    (playAllVideos videos frameNumber startFrame fps).1 =
      videos.map (playOutcome (((frameNumber : ℚ) - (startFrame : ℚ)) / fps)) := by
  unfold playAllVideos
  rw [hne]
  simp only [Bool.false_eq_true, if_false]
  unfold unmutePhase playPhase seekAllPhase pauseMutePhase
  simp only [List.map_map]
  refine List.map_congr_left ?_
  intro v _
  by_cases h : v.playOk <;> simp [Function.comp, playOutcome, h]

theorem playAllVideos_trace (videos : List MediaEl) (frameNumber startFrame : Int) (fps : ℚ)
    (hne : videos.isEmpty = false) :
    (playAllVideos videos frameNumber startFrame fps).2 =
      ((List.range videos.length).flatMap fun i => [PlayEv.pauseEl i, PlayEv.muteEl i true]) ++
        ((List.range videos.length).map fun i =>
          PlayEv.seekEl i (((frameNumber : ℚ) - (startFrame : ℚ)) / fps)) ++
        ((List.range videos.length).map fun i => PlayEv.playEl i) ++
        (videos.enum.map fun p => PlayEv.muteEl p.1 (!p.2.activeCell)) := by
  unfold playAllVideos
  rw [hne]
  simp only [Bool.false_eq_true, if_false]
  unfold unmutePhase playPhase seekAllPhase pauseMutePhase
  simp only [List.map_map, List.length_map]
  congr 1
  rw [enum_map_pair, List.map_map]
  refine List.map_congr_left ?_
  intro p _
  by_cases h : p.2.playOk <;> simp [Function.comp, h]

/-- C4: for a non-empty list of media elements, the synchronized play
sequence issues, in order, a pause-and-mute operation for every element,
then a seek of every element to the frame-derived target time, then a
play of every element, then the unmute-active pass; in the final state
every element sits at the target time, every element whose `play()`
resolved is unpaused, every element's muted flag is the negation of its
active-cell flag, and when exactly one element is in the active cell,
exactly one element ends unmuted. -/
theorem C4_play_sequence (videos : List MediaEl) (frameNumber startFrame : Int) (fps : ℚ)
    (hne : videos ≠ [])
    (hone : (videos.countP fun v => v.activeCell) = 1) :
    (playAllVideos videos frameNumber startFrame fps).2 =
        ((List.range videos.length).flatMap fun i => [PlayEv.pauseEl i, PlayEv.muteEl i true]) ++
          ((List.range videos.length).map fun i =>
            PlayEv.seekEl i (((frameNumber : ℚ) - (startFrame : ℚ)) / fps)) ++
          ((List.range videos.length).map fun i => PlayEv.playEl i) ++
          (videos.enum.map fun p => PlayEv.muteEl p.1 (!p.2.activeCell)) ∧
      (∀ v ∈ (playAllVideos videos frameNumber startFrame fps).1,
          v.currentTime = ((frameNumber : ℚ) - (startFrame : ℚ)) / fps) ∧
      (∀ v ∈ (playAllVideos videos frameNumber startFrame fps).1,
          v.playOk = true → v.paused = false) ∧
      (∀ v ∈ (playAllVideos videos frameNumber startFrame fps).1,
          v.muted = !v.activeCell) ∧
      ((playAllVideos videos frameNumber startFrame fps).1.countP fun v => !v.muted) = 1 := by
  have hne' : videos.isEmpty = false := by
    cases videos with
    | nil => exact absurd rfl hne
    | cons a l => rfl
  have hfin := playAllVideos_final videos frameNumber startFrame fps hne'
  refine ⟨playAllVideos_trace videos frameNumber startFrame fps hne', ?_, ?_, ?_, ?_⟩
  · intro v hv
    rw [hfin] at hv
    obtain ⟨w, _, hw⟩ := List.mem_map.mp hv
    rw [← hw]
    rfl
  · intro v hv
    rw [hfin] at hv
    obtain ⟨w, _, hw⟩ := List.mem_map.mp hv
    rw [← hw]
    intro hok
    have : w.playOk = true := by
      simpa [playOutcome] using hok
    simp [playOutcome, this]
  · intro v hv
    rw [hfin] at hv
    obtain ⟨w, _, hw⟩ := List.mem_map.mp hv
    rw [← hw]
    rfl
  · rw [hfin, List.countP_map]
    have : ((fun v => !v.muted) ∘ playOutcome (((frameNumber : ℚ) - (startFrame : ℚ)) / fps)) =
        fun v => v.activeCell := by
      funext v
      simp [playOutcome]
    rw [this, hone]

/-- Three concrete media elements, exactly one in the active cell. -/
def c4Videos : List MediaEl :=
  [ ⟨true, 0, true, true, false, true⟩
  , ⟨false, 2, true, false, false, true⟩
  , ⟨false, 5, false, true, false, false⟩ ]

/-- C4 witness: the play sequence over three concrete elements leaves
exactly one element unmuted. -/
theorem C4_play_sequence_witness :
    ((playAllVideos c4Videos 30 0 30).1.countP fun v => !v.muted) = 1 :=
  (C4_play_sequence c4Videos 30 0 30 (by simp [c4Videos]) (by decide)).2.2.2.2

/-- The per-element body of the pause-seek effect: seek the element to
the target time exactly when its distance from the target exceeds the
tolerance. -/
def seekEffectStep (targetTime tolerance : ℚ) (v : MediaEl) : MediaEl :=
  if tolerance < |v.currentTime - targetTime| then { v with currentTime := targetTime } else v

/-- Shallow embedding of the seek-on-frame-change effect
(src/unnamed/part_005, lines 217-235): when the synchronous playing ref
is set, or no videos exist, nothing happens; otherwise every element
farther than `0.5 / fps` from `(frameNumber - startFrame) / fps` is sought
there. -/
def seekOnFrameChange (playingRef : Bool) (videos : List MediaEl)
    (frameNumber startFrame : Int) (fps : ℚ) : List MediaEl :=
  if playingRef then videos
  else if videos.isEmpty then videos
  else
    videos.map (seekEffectStep (((frameNumber : ℚ) - (startFrame : ℚ)) / fps) ((1 / 2) / fps))

/-- C5: with positive fps and the playing ref unset, after the effect
every media element lies within half a frame interval of the target time;
an element already within the tolerance is left untouched, and an element
outside it is sought exactly to the target. -/
theorem C5_seek_on_frame_change (playingRef : Bool) (videos : List MediaEl)
    (frameNumber startFrame : Int) (fps : ℚ)
    (hfps : 0 < fps) (hplay : playingRef = false) :
    (∀ v ∈ seekOnFrameChange playingRef videos frameNumber startFrame fps,
        |v.currentTime - ((frameNumber : ℚ) - (startFrame : ℚ)) / fps| ≤ (1 / 2) / fps) ∧
      (∀ v : MediaEl,
          |v.currentTime - ((frameNumber : ℚ) - (startFrame : ℚ)) / fps| ≤ (1 / 2) / fps →
          seekEffectStep (((frameNumber : ℚ) - (startFrame : ℚ)) / fps) ((1 / 2) / fps) v = v) ∧
      (∀ v : MediaEl,
          (1 / 2) / fps < |v.currentTime - ((frameNumber : ℚ) - (startFrame : ℚ)) / fps| →
          (seekEffectStep (((frameNumber : ℚ) - (startFrame : ℚ)) / fps) ((1 / 2) / fps) v).currentTime =
            ((frameNumber : ℚ) - (startFrame : ℚ)) / fps) := by
  subst hplay
  have htol : (0 : ℚ) ≤ (1 / 2) / fps := by positivity
  refine ⟨?_, ?_, ?_⟩
  · intro v hv
    unfold seekOnFrameChange at hv
    simp only [Bool.false_eq_true, if_false] at hv
    by_cases he : videos.isEmpty
    · rw [if_pos he] at hv
      rw [List.isEmpty_iff] at he
      subst he
      simp at hv
    · rw [if_neg he] at hv
      obtain ⟨w, _, hw⟩ := List.mem_map.mp hv
      subst hw
      unfold seekEffectStep
      split
      · simpa using htol
      · rename_i hle
        exact le_of_not_lt hle
  · intro v hle
    unfold seekEffectStep
    rw [if_neg (not_lt.mpr hle)]
  · intro v hgt
    unfold seekEffectStep
    rw [if_pos hgt]

/-- C5 witness: a paused three-element configuration at fps 30, frame 30:
the element at time 0.9 s is sought, the element at exactly 1 s stays. -/
theorem C5_seek_on_frame_change_witness :
    (∀ v ∈ seekOnFrameChange false
        [⟨true, 9 / 10, true, false, false, true⟩, ⟨false, 1, true, true, false, true⟩]
        30 0 30,
        |v.currentTime - ((30 : ℚ) - (0 : ℚ)) / 30| ≤ (1 / 2) / 30) ∧
      seekEffectStep (((30 : ℚ) - (0 : ℚ)) / 30) ((1 / 2) / 30)
          ⟨false, 1, true, true, false, true⟩ = ⟨false, 1, true, true, false, true⟩ := by
  have h := C5_seek_on_frame_change false
    [⟨true, 9 / 10, true, false, false, true⟩, ⟨false, 1, true, true, false, true⟩]
    30 0 30 (by norm_num) rfl
  exact ⟨h.1, h.2.1 ⟨false, 1, true, true, false, true⟩ (by norm_num)⟩

/-- The Redux `ActiveControl` values the multiview workspace inspects. -/
inductive ActiveControl
  | cursor
  | zoomCanvas
  | dragCanvas
  | drawRectangle
  | drawPolygon
  | drawPolyline
  | drawPoints
  | drawEllipse
  | drawCuboid
  | drawSkeleton
  | drawMask
  | aiTools
  | opencvTools
deriving DecidableEq, Repr

/-- The `DRAW_ACTIVE_CONTROLS` list: controls that indicate a draw
operation is requested or in progress. -/
def drawActiveControls : List ActiveControl :=
  [ ActiveControl.drawRectangle
  , ActiveControl.drawPolygon
  , ActiveControl.drawPolyline
  , ActiveControl.drawPoints
  , ActiveControl.drawEllipse
  , ActiveControl.drawCuboid
  , ActiveControl.drawSkeleton
  , ActiveControl.drawMask
  , ActiveControl.aiTools
  , ActiveControl.opencvTools ]

/-- The state touched by the auto-pause effect: the previous active
control stored in `prevActiveControlRef`, the synchronous `playingRef`
intent flag, and the media elements. -/
structure CoordState where
  prevActiveControl : ActiveControl
  playingRef : Bool
  videos : List MediaEl
deriving DecidableEq

/-- The ordered observable actions of the auto-pause effect. -/
inductive CoordAction
  | setPlayingRef : Bool → CoordAction
  | pauseAllEls : CoordAction
  | dispatchSwitchPlay : Bool → CoordAction
deriving DecidableEq

/-- Shallow embedding of the auto-pause-on-draw-entry effect
(src/unnamed/part_005, lines 196-213): when playing and the previous
control was not a draw control but the new one is, it sets `playingRef`
to false, pauses every element, and dispatches `switchPlay(false)`, in
that order; in every other case it only records the new control. -/
def drawModeEntry (st : CoordState) (playing : Bool) (activeControl : ActiveControl) :
    CoordState × List CoordAction :=
  let wasInDrawMode := drawActiveControls.contains st.prevActiveControl
  let isInDrawMode := drawActiveControls.contains activeControl
  if playing = true ∧ wasInDrawMode = false ∧ isInDrawMode = true then
    ({ prevActiveControl := activeControl
       playingRef := false
       videos := st.videos.map fun v => { v with paused := true } },
     [CoordAction.setPlayingRef false, CoordAction.pauseAllEls,
       CoordAction.dispatchSwitchPlay false])
  else
    ({ st with prevActiveControl := activeControl }, [])

/-- C6: entering a draw control while playing pauses every element and
clears the synchronous intent flag, with the intent flag set before the
pause and before the asynchronous switch-play dispatch; and when the
previous control was already a draw control (steady state), or playback
is off, nothing is paused and no action is issued. -/
theorem C6_draw_entry_pause (st : CoordState) (playing : Bool) (ac : ActiveControl) :
    (playing = true → drawActiveControls.contains st.prevActiveControl = false →
        drawActiveControls.contains ac = true →
        ((drawModeEntry st playing ac).1.playingRef = false ∧
          (∀ v ∈ (drawModeEntry st playing ac).1.videos, v.paused = true) ∧
          (drawModeEntry st playing ac).2 =
            [CoordAction.setPlayingRef false, CoordAction.pauseAllEls,
              CoordAction.dispatchSwitchPlay false])) ∧
      (drawActiveControls.contains st.prevActiveControl = true →
        ((drawModeEntry st playing ac).1.videos = st.videos ∧
          (drawModeEntry st playing ac).1.playingRef = st.playingRef ∧
          (drawModeEntry st playing ac).2 = [])) ∧
      (playing = false →
        ((drawModeEntry st playing ac).1.videos = st.videos ∧
          (drawModeEntry st playing ac).1.playingRef = st.playingRef ∧
          (drawModeEntry st playing ac).2 = [])) := by
  refine ⟨?_, ?_, ?_⟩
  · intro hp hwas his
    unfold drawModeEntry
    rw [if_pos ⟨hp, hwas, his⟩]
    refine ⟨rfl, ?_, rfl⟩
    intro v hv
    obtain ⟨w, _, hw⟩ := List.mem_map.mp hv
    subst hw
    rfl
  · intro hwas
    unfold drawModeEntry
    rw [if_neg ?_]
    · exact ⟨rfl, rfl, rfl⟩
    · rintro ⟨-, hcontra, -⟩
      rw [hwas] at hcontra
      exact absurd hcontra (by simp)
  · intro hp
    unfold drawModeEntry
    rw [if_neg ?_]
    · exact ⟨rfl, rfl, rfl⟩
    · rintro ⟨hcontra, -, -⟩
      rw [hp] at hcontra
      exact absurd hcontra (by simp)

/-- C6 witness: entering the rectangle draw tool while playing from the
cursor control, over one concrete element. -/
theorem C6_draw_entry_pause_witness :
    (drawModeEntry ⟨ActiveControl.cursor, true, [⟨true, 0, false, false, false, true⟩]⟩
        true ActiveControl.drawRectangle).1.playingRef = false ∧
      (drawModeEntry ⟨ActiveControl.cursor, true, [⟨true, 0, false, false, false, true⟩]⟩
          true ActiveControl.drawRectangle).2 =
        [CoordAction.setPlayingRef false, CoordAction.pauseAllEls,
          CoordAction.dispatchSwitchPlay false] := by
  have h := (C6_draw_entry_pause
    ⟨ActiveControl.cursor, true, [⟨true, 0, false, false, false, true⟩]⟩
    true ActiveControl.drawRectangle).1 rfl (by decide) (by decide)
  exact ⟨h.1, h.2.2⟩

/-- Canvas interaction modes the wrapper distinguishes: the surface is
either idle (cursor/mounted) or inside a drawing gesture. -/
inductive CanvasMode
  | idleMode
  | drawingMode
deriving DecidableEq, Repr

/-- The state of the canvas lifecycle controller
(multiview-canvas-wrapper.tsx, second revision): the active view prop,
the `stateRefs.current.activeViewId` mirror, the canvas mode, the Redux
active control, the view recorded when the current gesture started, the
`prevViewIdRef` used by the view-change effect, and two observation logs:
each `setup` call with the canvas mode at that moment, and each completed
shape with its stamped viewId and the view where its gesture started. -/
structure CanvasState where
  activeViewId : Int
  refsViewId : Int
  mode : CanvasMode
  activeControl : ActiveControl
  drawStartView : Option Int
  prevViewId : Option Int
  setupLog : List (Int × CanvasMode)
  shapeLog : List (Int × Option Int)
deriving DecidableEq, Repr

/-- The `shouldPreserveDrawState` guard: the canvas is in a draw mode, or
a draw operation is requested via the Redux active control. -/
def shouldPreserveDrawState (st : CanvasState) : Bool :=
  decide (st.mode = CanvasMode.drawingMode) || drawActiveControls.contains st.activeControl

/-- One run of the setup effect: it issues a `setup` call only when the
`shouldPreserveDrawState` guard is off, recording the mode at call
time. -/
def issueSetup (st : CanvasState) : CanvasState :=
  if shouldPreserveDrawState st then st
  else { st with setupLog := st.setupLog ++ [(st.activeViewId, st.mode)] }

/-- Events driving the canvas lifecycle: arming a draw tool, the surface
completing a shape (`canvas.drawn`), the user switching the active view
(one React flush: render, refs update, view-change effect, remount setup,
frame-data setup effect), and a frame or annotations change re-running
the setup effect. -/
inductive CanvasEv
  | startDraw : ActiveControl → CanvasEv
  | finishShape : CanvasEv
  | switchView : Int → CanvasEv
  | dataRefresh : CanvasEv
deriving DecidableEq, Repr

/-- The view-change effect (multiview-canvas-wrapper.tsx, lines
890-911): when the previous-view ref is set and differs from the current
active view, the canvas is force-cancelled and the active control reset
to cursor; the previous-view ref is then updated. -/
def viewChangeEffect (st : CanvasState) (v : Int) : CanvasState :=
  if st.prevViewId ≠ none ∧ st.prevViewId ≠ some v then
    { st with
        mode := CanvasMode.idleMode
        activeControl := ActiveControl.cursor
        drawStartView := none
        prevViewId := some v }
  else { st with prevViewId := some v }

/-- One event step of the canvas lifecycle controller: a draw tool arms a
gesture and records the view it started in; `canvas.drawn` stamps the
shape with `stateRefs.current.activeViewId` and resets to cursor; a view
switch updates the props and refs, runs the view-change effect, then the
remount setup and the frame-data setup effect, both behind
`shouldPreserveDrawState`; a data change runs the setup effect alone. -/
def canvasStep (st : CanvasState) (e : CanvasEv) : CanvasState :=
  match e with
  | CanvasEv.startDraw tool =>
      if drawActiveControls.contains tool = true ∧ st.mode = CanvasMode.idleMode then
        { st with
            mode := CanvasMode.drawingMode
            activeControl := tool
            drawStartView := some st.activeViewId }
      else st
  | CanvasEv.finishShape =>
      if st.mode = CanvasMode.drawingMode then
        { st with
            mode := CanvasMode.idleMode
            activeControl := ActiveControl.cursor
            drawStartView := none
            shapeLog := st.shapeLog ++ [(st.refsViewId, st.drawStartView)] }
      else st
  | CanvasEv.switchView v =>
      issueSetup (issueSetup (viewChangeEffect
        { st with activeViewId := v, refsViewId := v } v))
  | CanvasEv.dataRefresh => issueSetup st

/-- A run of the controller over an event list. -/
def canvasRun (st : CanvasState) (evs : List CanvasEv) : CanvasState :=
  evs.foldl canvasStep st

/-- The controller state right after the first mount in view `v0`. -/
def initialCanvasState (v0 : Int) : CanvasState :=
  { activeViewId := v0
    refsViewId := v0
    mode := CanvasMode.idleMode
    activeControl := ActiveControl.cursor
    drawStartView := none
    prevViewId := some v0
    setupLog := []
    shapeLog := [] }

/-- The inductive invariant of the canvas lifecycle: the refs mirror and
the previous-view ref track the active view, an open gesture always
started in the current active view (a view switch cancels the gesture),
every recorded `setup` was issued while the surface was idle, and every
completed shape is stamped with the view its gesture started in. -/
def canvasInv (st : CanvasState) : Prop :=
  st.refsViewId = st.activeViewId ∧
    st.prevViewId = some st.activeViewId ∧
    (st.mode = CanvasMode.drawingMode → st.drawStartView = some st.activeViewId) ∧
    (∀ p ∈ st.setupLog, p.2 = CanvasMode.idleMode) ∧
    (∀ p ∈ st.shapeLog, p.2 = some p.1)

theorem issueSetup_inv (st : CanvasState) (h : canvasInv st) : canvasInv (issueSetup st) := by
  obtain ⟨h₁, h₂, h₃, h₄, h₅⟩ := h
  unfold issueSetup
  by_cases hguard : shouldPreserveDrawState st = true
  · rw [if_pos hguard]
    exact ⟨h₁, h₂, h₃, h₄, h₅⟩
  · rw [if_neg hguard]
    refine ⟨h₁, h₂, h₃, ?_, h₅⟩
    intro p hp
    rcases List.mem_append.mp hp with hl | hr
    · exact h₄ p hl
    · have hm : st.mode = CanvasMode.idleMode := by
        simp only [shouldPreserveDrawState, Bool.or_eq_true, decide_eq_true_eq] at hguard
        push_neg at hguard
        cases hmode : st.mode
        · rfl
        · exact absurd hmode hguard.1
      rw [List.mem_singleton.mp hr, hm]

theorem canvasStep_inv (st : CanvasState) (e : CanvasEv) (h : canvasInv st) :
    canvasInv (canvasStep st e) := by
  obtain ⟨h₁, h₂, h₃, h₄, h₅⟩ := h
  cases e with
  | startDraw tool =>
      simp only [canvasStep]
      by_cases hc : drawActiveControls.contains tool = true ∧ st.mode = CanvasMode.idleMode
      · rw [if_pos hc]
        exact ⟨h₁, h₂, fun _ => rfl, h₄, h₅⟩
      · rw [if_neg hc]
        exact ⟨h₁, h₂, h₃, h₄, h₅⟩
  | finishShape =>
      simp only [canvasStep]
      by_cases hc : st.mode = CanvasMode.drawingMode
      · rw [if_pos hc]
        refine ⟨h₁, h₂, fun hcontra => by simp at hcontra, h₄, ?_⟩
        intro p hp
        rcases List.mem_append.mp hp with hl | hr
        · exact h₅ p hl
        · rw [List.mem_singleton.mp hr]
          rw [h₃ hc, h₁]
      · rw [if_neg hc]
        exact ⟨h₁, h₂, h₃, h₄, h₅⟩
  | switchView v =>
      simp only [canvasStep]
      refine issueSetup_inv _ (issueSetup_inv _ ?_)
      unfold viewChangeEffect
      by_cases hc : (⟨v, v, st.mode, st.activeControl, st.drawStartView, st.prevViewId,
          st.setupLog, st.shapeLog⟩ : CanvasState).prevViewId ≠ none ∧
          (⟨v, v, st.mode, st.activeControl, st.drawStartView, st.prevViewId,
            st.setupLog, st.shapeLog⟩ : CanvasState).prevViewId ≠ some v
      · rw [if_pos hc]
        exact ⟨rfl, rfl, fun hcontra => by simp at hcontra, h₄, h₅⟩
      · rw [if_neg hc]
        have hveq : st.activeViewId = v := by
          rcases not_and_or.mp hc with hnone | hsome
          · have : st.prevViewId = none := not_not.mp (by simpa using hnone)
            rw [h₂] at this
            exact absurd this (by simp)
          · have hv : st.prevViewId = some v := not_not.mp (by simpa using hsome)
            exact Option.some.inj (h₂.symm.trans hv)
        refine ⟨rfl, rfl, ?_, h₄, h₅⟩
        intro hdraw
        have := h₃ hdraw
        simp only at this ⊢
        rw [this, hveq]
  | dataRefresh => exact issueSetup_inv st ⟨h₁, h₂, h₃, h₄, h₅⟩

theorem canvasRun_inv (st : CanvasState) (evs : List CanvasEv) (h : canvasInv st) :
    canvasInv (canvasRun st evs) := by
  induction evs generalizing st with
  | nil => exact h
  | cons e rest ih => exact ih (canvasStep st e) (canvasStep_inv st e h)

theorem initialCanvasState_inv (v0 : Int) : canvasInv (initialCanvasState v0) := by
  refine ⟨rfl, rfl, fun hcontra => by simp [initialCanvasState] at hcontra, ?_, ?_⟩
  · intro p hp
    simp [initialCanvasState] at hp
  · intro p hp
    simp [initialCanvasState] at hp

/-- C3: over every event sequence from a mount in view `v0`, the drawing
surface never receives a `setup` call while it is in the Drawing state —
in particular a view change during a gesture issues no setup before the
gesture resolves — and every completed shape is stamped with the viewId
of the view that was active when its drawing started (a view change
mid-gesture force-cancels the gesture, so the view at completion always
equals the view at the start of the gesture). -/
theorem C3_draw_preserved_across_views (v0 : Int) (evs : List CanvasEv) :
    (∀ p ∈ (canvasRun (initialCanvasState v0) evs).setupLog, p.2 = CanvasMode.idleMode) ∧
      (∀ p ∈ (canvasRun (initialCanvasState v0) evs).shapeLog, p.2 = some p.1) := by
  have h := canvasRun_inv (initialCanvasState v0) evs (initialCanvasState_inv v0)
  exact ⟨h.2.2.2.1, h.2.2.2.2⟩

/-- C3 witness: a gesture armed in view 1, a switch to view 2 (which
cancels it), a fresh gesture in view 2 and its completion; the recorded
shape is stamped with view 2, and the membership hypotheses of the
theorem are discharged on this concrete run. -/
theorem C3_draw_preserved_across_views_witness :
    ((2 : Int), (some 2 : Option Int)) ∈
        (canvasRun (initialCanvasState 1)
          [CanvasEv.startDraw ActiveControl.drawRectangle, CanvasEv.switchView 2,
            CanvasEv.startDraw ActiveControl.drawRectangle, CanvasEv.finishShape]).shapeLog ∧
      (some 2 : Option Int) = some 2 :=
  ⟨by decide,
    (C3_draw_preserved_across_views 1
      [CanvasEv.startDraw ActiveControl.drawRectangle, CanvasEv.switchView 2,
        CanvasEv.startDraw ActiveControl.drawRectangle, CanvasEv.finishShape]).2
      (2, some 2) (by decide)⟩

/-- Rescale every second coordinate of a flat point list
`[x0, y0, x1, y1, ...]` by the factor `r` (only the vertical axis is
rescaled). -/
def scaleYAxis (r : ℚ) : List ℚ → List ℚ
  | [] => []
  | [x] => [x]
  | x :: y :: rest => x :: y * r :: scaleYAxis r rest

/-- Modelled from the spec: the repository sources contain no
CoordinateTransformer implementation, so `toTaskSpace` follows spec
section 4.1 — for storage, every vertical coordinate is multiplied by
`taskHeight / viewHeightInViewSpace`. -/
def toTaskSpace (points : List ℚ) (viewHeightInViewSpace taskHeight : ℚ) : List ℚ :=
  scaleYAxis (taskHeight / viewHeightInViewSpace) points

/-- Modelled from the spec: the inverse display-direction transform of
spec section 4.1 — every vertical coordinate is multiplied by
`viewHeightInViewSpace / taskHeight`. -/
def toViewSpace (points : List ℚ) (viewHeightInViewSpace taskHeight : ℚ) : List ℚ :=
  scaleYAxis (viewHeightInViewSpace / taskHeight) points

theorem scaleYAxis_scaleYAxis (r s : ℚ) :
    (p : List ℚ) → scaleYAxis r (scaleYAxis s p) = scaleYAxis (s * r) p
  | [] => rfl
  | [x] => rfl
  | x :: y :: rest => by
      simp only [scaleYAxis, scaleYAxis_scaleYAxis r s rest, List.cons.injEq, true_and,
        and_true]
      ring

theorem scaleYAxis_one : (p : List ℚ) → scaleYAxis 1 p = p
  | [] => rfl
  | [x] => rfl
  | x :: y :: rest => by
      simp only [scaleYAxis, scaleYAxis_one rest, mul_one]

/-- C7: for every point list and positive view-space and task heights,
storing a displayed point list returns the original list exactly — and
hence componentwise within the 1e-6 tolerance. -/
theorem C7_transform_round_trip (p : List ℚ) (h th : ℚ) (hh : 0 < h) (hth : 0 < th) :
    toTaskSpace (toViewSpace p h th) h th = p ∧
      ∀ i : Nat,
        |(toTaskSpace (toViewSpace p h th) h th).getD i 0 - p.getD i 0| ≤ 1 / 1000000 := by
  have hh0 : h ≠ 0 := ne_of_gt hh
  have hth0 : th ≠ 0 := ne_of_gt hth
  have hexact : toTaskSpace (toViewSpace p h th) h th = p := by
    unfold toTaskSpace toViewSpace
    rw [scaleYAxis_scaleYAxis]
    have : h / th * (th / h) = 1 := by
      field_simp
    rw [this, scaleYAxis_one]
  refine ⟨hexact, ?_⟩
  intro i
  rw [hexact]
  simp

/-- C7 witness: the round trip on a concrete rectangle with view height 3
and task height 4. -/
theorem C7_transform_round_trip_witness :
    toTaskSpace (toViewSpace [10, 20, 30, 40] 3 4) 3 4 = [10, 20, 30, 40] :=
  (C7_transform_round_trip [10, 20, 30, 40] 3 4 (by norm_num) (by norm_num)).1

/-- A CVAT label, identified by its id. -/
structure Label where
  id : Int
deriving DecidableEq, Repr

/-- The label resolution chain of `onCanvasShapeDrawn`
(multiview-canvas-wrapper.tsx): the drawn state's own label, else the job
label matching `activeLabelID`, else the job's first label. -/
def resolveLabel (stateLabel : Option Label) (labels : List Label)
    (activeLabelID : Option Int) : Option Label :=
  match stateLabel with
  | some l => some l
  | none =>
      match labels.find? fun l => decide (some l.id = activeLabelID) with
      | some l => some l
      | none => labels.head?

/-- The object handed to the external store on shape completion. -/
structure CreatedShape where
  label : Label
  frame : Int
  viewId : Int
deriving DecidableEq, Repr

/-- The observable outcome of `onCanvasShapeDrawn`: the object given to
`createAnnotationsAsync`, if any, and whether the missing-label error was
logged. -/
structure DrawnOutcome where
  created : Option CreatedShape
  loggedError : Bool
deriving DecidableEq, Repr

/-- Shallow embedding of the label-resolution part of
`onCanvasShapeDrawn` (multiview-canvas-wrapper.tsx, lines 683-714): when
no label resolves, the handler logs an error and returns without invoking
the store's create capability; otherwise it stamps frame and viewId and
creates the object state. -/
def handleShapeDrawn (labels : List Label) (activeLabelID : Option Int)
    (stateLabel : Option Label) (frameNumber viewId : Int) : DrawnOutcome :=
  match resolveLabel stateLabel labels activeLabelID with
  | none => { created := none, loggedError := true }
  | some lab =>
      { created := some { label := lab, frame := frameNumber, viewId := viewId }
        loggedError := false }

/-- C8: label resolution fails exactly when the drawn state carries no
label and the job has no labels, and in that case the create operation is
aborted and logged — no object is handed to the store. -/
theorem C8_missing_label_abort (labels : List Label) (activeLabelID : Option Int)
    (stateLabel : Option Label) (frameNumber viewId : Int) :
    (resolveLabel stateLabel labels activeLabelID = none ↔
        stateLabel = none ∧ labels = []) ∧
      (resolveLabel stateLabel labels activeLabelID = none →
        (handleShapeDrawn labels activeLabelID stateLabel frameNumber viewId).created = none ∧
          (handleShapeDrawn labels activeLabelID stateLabel frameNumber viewId).loggedError = true) := by
  constructor
  · cases stateLabel with
    | some l => simp [resolveLabel]
    | none =>
        cases labels with
        | nil => simp [resolveLabel]
        | cons a t =>
            simp only [resolveLabel]
            constructor
            · intro hnone
              cases hf : List.find? (fun l => decide (some l.id = activeLabelID)) (a :: t) with
              | some l => rw [hf] at hnone; exact absurd hnone (by simp)
              | none => rw [hf] at hnone; simp at hnone
            · rintro ⟨-, hcontra⟩
              exact absurd hcontra (by simp)
  · intro hnone
    unfold handleShapeDrawn
    rw [hnone]
    exact ⟨rfl, rfl⟩

/-- C8 witness: an empty label list and no state label abort the create
with a logged error. -/
theorem C8_missing_label_abort_witness :
    (handleShapeDrawn [] none none 7 2).created = none ∧
      (handleShapeDrawn [] none none 7 2).loggedError = true :=
  (C8_missing_label_abort [] none none 7 2).2 (by rfl)

/-- A frame descriptor as the canvas sees it: the declared width and
height plus all remaining delegated properties, kept abstract. -/
structure FrameMeta (α : Type) where
  width : Int
  height : Int
  payload : α

/-- Shallow embedding of `createVideoFrameDataProxy`
(multiview-canvas-wrapper.tsx, lines 458-480): with a missing descriptor
or non-positive decoded dimensions the original descriptor is returned
unchanged; otherwise the width and height are overridden and all other
properties delegate to the original. -/
def createVideoFrameDataProxy {α : Type} (originalFrameData : Option (FrameMeta α))
    (videoWidth videoHeight : Int) : Option (FrameMeta α) :=
  match originalFrameData with
  | none => none
  | some fd =>
      if videoWidth ≤ 0 ∨ videoHeight ≤ 0 then some fd
      else some { fd with width := videoWidth, height := videoHeight }

/-- C9: when the decoded video dimensions are zero or negative the
dimension override is skipped and the original frame descriptor is
returned unchanged. -/
theorem C9_proxy_identity {α : Type} (originalFrameData : Option (FrameMeta α))
    (videoWidth videoHeight : Int)
    (h : videoWidth ≤ 0 ∨ videoHeight ≤ 0) :
    createVideoFrameDataProxy originalFrameData videoWidth videoHeight = originalFrameData := by
  cases originalFrameData with
  | none => rfl
  | some fd =>
      simp only [createVideoFrameDataProxy]
      rw [if_pos h]

/-- C9 witness: zero decoded width leaves a concrete descriptor
untouched. -/
theorem C9_proxy_identity_witness :
    createVideoFrameDataProxy (some (⟨1920, 1080, 3⟩ : FrameMeta Int)) 0 720 =
      some (⟨1920, 1080, 3⟩ : FrameMeta Int) :=
  C9_proxy_identity (some ⟨1920, 1080, 3⟩) 0 720 (Or.inl le_rfl)

/-- The display area of a video rendered with object-fit contain:
size and centering offsets inside the container. -/
structure VideoDisplayArea where
  width : ℚ
  height : ℚ
  offsetX : ℚ
  offsetY : ℚ
deriving DecidableEq, Repr

/-- Shallow embedding of `calculateVideoDisplayArea`
(src/unnamed/part_001, lines 31-64): non-positive inputs fall back to the
full container with zero offsets; a container wider than the video
letterboxes left and right, otherwise top and bottom. -/
def calculateVideoDisplayArea (containerWidth containerHeight videoWidth videoHeight : ℚ) :
    VideoDisplayArea :=
  if containerWidth ≤ 0 ∨ containerHeight ≤ 0 ∨ videoWidth ≤ 0 ∨ videoHeight ≤ 0 then
    { width := containerWidth, height := containerHeight, offsetX := 0, offsetY := 0 }
  else if videoWidth / videoHeight < containerWidth / containerHeight then
    { width := containerHeight * (videoWidth / videoHeight)
      height := containerHeight
      offsetX := (containerWidth - containerHeight * (videoWidth / videoHeight)) / 2
      offsetY := 0 }
  else
    { width := containerWidth
      height := containerWidth / (videoWidth / videoHeight)
      offsetX := 0
      offsetY := (containerHeight - containerWidth / (videoWidth / videoHeight)) / 2 }

/-- C10: for positive container and video sizes the computed display area
preserves the video aspect, fits inside the container, is centered with
non-negative offsets satisfying the two centering equations, and keeps at
least one offset zero; for any non-positive input it is the full
container with zero offsets. -/
theorem C10_display_area (cw ch vw vh : ℚ) :
    (0 < cw → 0 < ch → 0 < vw → 0 < vh →
      ((calculateVideoDisplayArea cw ch vw vh).width /
            (calculateVideoDisplayArea cw ch vw vh).height = vw / vh ∧
        (calculateVideoDisplayArea cw ch vw vh).width ≤ cw ∧
        (calculateVideoDisplayArea cw ch vw vh).height ≤ ch ∧
        0 ≤ (calculateVideoDisplayArea cw ch vw vh).offsetX ∧
        0 ≤ (calculateVideoDisplayArea cw ch vw vh).offsetY ∧
        2 * (calculateVideoDisplayArea cw ch vw vh).offsetX +
            (calculateVideoDisplayArea cw ch vw vh).width = cw ∧
        2 * (calculateVideoDisplayArea cw ch vw vh).offsetY +
            (calculateVideoDisplayArea cw ch vw vh).height = ch ∧
        ((calculateVideoDisplayArea cw ch vw vh).offsetX = 0 ∨
          (calculateVideoDisplayArea cw ch vw vh).offsetY = 0))) ∧
      ((cw ≤ 0 ∨ ch ≤ 0 ∨ vw ≤ 0 ∨ vh ≤ 0) →
        calculateVideoDisplayArea cw ch vw vh =
          { width := cw, height := ch, offsetX := 0, offsetY := 0 }) := by
  constructor
  · intro hcw hch hvw hvh
    have hneg : ¬(cw ≤ 0 ∨ ch ≤ 0 ∨ vw ≤ 0 ∨ vh ≤ 0) := by
      push_neg
      exact ⟨hcw, hch, hvw, hvh⟩
    have hva : 0 < vw / vh := div_pos hvw hvh
    unfold calculateVideoDisplayArea
    rw [if_neg hneg]
    by_cases hA : vw / vh < cw / ch
    · rw [if_pos hA]
      have hwlt : ch * (vw / vh) < cw := by
        have h2 := (lt_div_iff₀ hch).mp hA
        calc ch * (vw / vh) = vw / vh * ch := by ring
          _ < cw := h2
      refine ⟨?_, le_of_lt hwlt, le_refl ch, ?_, le_refl 0, by ring, by ring, Or.inr rfl⟩
      · rw [mul_comm, mul_div_assoc]
        rw [div_self (ne_of_gt hch), mul_one]
      · have : 0 < cw - ch * (vw / vh) := by linarith
        positivity
    · rw [if_neg hA]
      push_neg at hA
      have hhle : cw / (vw / vh) ≤ ch := by
        rw [div_le_iff₀ hva]
        have h2 := (div_le_iff₀ hch).mp hA
        calc cw ≤ vw / vh * ch := h2
          _ = ch * (vw / vh) := by ring
      have hhpos : 0 < cw / (vw / vh) := div_pos hcw hva
      refine ⟨?_, le_refl cw, hhle, le_refl 0, ?_, by ring, by ring, Or.inl rfl⟩
      · rw [div_div_eq_mul_div, mul_comm, mul_div_assoc]
        rw [div_self (ne_of_gt hcw), mul_one]
      · have : 0 ≤ ch - cw / (vw / vh) := by linarith
        positivity
  · intro h
    unfold calculateVideoDisplayArea
    rw [if_pos h]

/-- C10 witness: a 16:9 video inside a 400 by 300 container is
letterboxed top and bottom while preserving its aspect. -/
theorem C10_display_area_witness :
    (calculateVideoDisplayArea 400 300 160 90).width /
        (calculateVideoDisplayArea 400 300 160 90).height = (160 : ℚ) / 90 ∧
      2 * (calculateVideoDisplayArea 400 300 160 90).offsetY +
        (calculateVideoDisplayArea 400 300 160 90).height = 300 := by
  have h := (C10_display_area 400 300 160 90).1
    (by norm_num) (by norm_num) (by norm_num) (by norm_num)
  exact ⟨h.1, h.2.2.2.2.2.2.1⟩

end Multiview
